import Mathlib

/-!
Verification of the gsh SSH certificate broker against its specification.

The development shallowly embeds the two source files of the repository:

* `api/handlers/vault.go` — the Delegated Signer (`Vault` receiver with
  `GetToken`, `SignSshCertificate`, `GetExternalPublicKey`);
* `cli/cmd/roleAssign.go` — the Client Agent commands `roleAssignCmd`
  (role-assign) and `hostConnectCmd` (host-connect).

HTTP exchanges are modelled by passing the response explicitly: a
`HttpResult α` is either a transport error (`client.Do` returned a non-nil
error) or a response with a status code and an already-decoded body of
type `α`.  Decoding of JSON into a Go struct is modelled with
`Option β` bodies: `none` means the decoder returned an error, in which
case the Go struct keeps its zero value (every field the empty string) —
that zero value is written out explicitly wherever the source ignores the
decoder error.  Each Go function also returns the list of outbound
calls it makes (the request it built and the client timeout it used), so
that properties about wire format, timeouts and retry counts are stated
about the same definition that produces the result of the function.
-/

/-- The result of one HTTP round trip: either the Go client returned an
error (`transportError`), or a response arrived with a status code and a
body already decoded to `α`. -/
inductive HttpResult (α : Type) where
  | transportError
  | response (status : Nat) (body : α)
deriving DecidableEq, Repr

/-- An outbound HTTP request as built by the Go source: method, URL,
headers and a JSON object body given as its string fields in the order
the source inserts them. -/
structure HttpRequest where
  method : String
  url : String
  headers : List (String × String)
  body : List (String × String)
deriving DecidableEq, Repr

/-- The timeout configured on the `http.Client` used for a call, in
seconds (`Timeout: time.Duration(10) * time.Second`). -/
structure HttpClientConfig where
  timeoutSeconds : Nat
deriving DecidableEq, Repr

/-- One outbound call: the client configuration it was issued with and
the request. -/
structure OutboundCall where
  client : HttpClientConfig
  request : HttpRequest
deriving DecidableEq, Repr

/-- The `Vault` struct of `vault.go`: base URL, cached token and the
AppRole credentials. -/
structure Vault where
  Url : String
  token : String
  roleId : String
  secretId : String
deriving DecidableEq, Repr

/-- The constructor `GetVault` returns the zero-valued `Vault` struct. -/
def GetVault : Vault :=
  { Url := "", token := "", roleId := "", secretId := "" }

/-- The `auth` object of the Vault login response (`authResponse.Auth`);
only the field the source reads is kept, the rest of the Go struct is
never consulted. -/
structure AuthBlock where
  client_token : String
deriving DecidableEq, Repr

/-- The decoded body of `POST /v1/auth/approle/login`
(`authResponse`). -/
structure AuthResponse where
  auth : AuthBlock
deriving DecidableEq, Repr

/-- The zero value a Go `authResponse` keeps when `decoder.Decode`
fails (its error is discarded in the source). -/
def AuthResponse.zero : AuthResponse :=
  { auth := { client_token := "" } }

/-- The `data` object of the signing response (`sshCertificate.Data`). -/
structure SignData where
  serial_number : String
  signed_key : String
deriving DecidableEq, Repr

/-- The decoded body of `POST /v1/ssh-client-signer/sign/teste-ssh`
(`sshCertificate`). -/
structure SignResponse where
  data : SignData
deriving DecidableEq, Repr

/-- The zero value a Go `sshCertificate` keeps when `decoder.Decode`
fails (its error is discarded in the source). -/
def SignResponse.zero : SignResponse :=
  { data := { serial_number := "", signed_key := "" } }

/-- The `*ssh.Certificate` argument of `SignSshCertificate`, reduced to
the two components relevant here: the marshalled authorized key of its
`Key` field and its `ValidPrincipals` list. -/
structure SshCert where
  keyAuthorized : String
  validPrincipals : List String
deriving DecidableEq, Repr

/-- The request `GetToken` builds: `POST https://<Url>/v1/auth/approle/login`
with JSON body `{role_id, secret_id}` (Go marshals the map with keys in
this sorted order) and a JSON content type. -/
def Vault.getTokenRequest (v : Vault) : HttpRequest :=
  { method := "POST"
  , url := "https://" ++ v.Url ++ "/v1/auth/approle/login"
  , headers := [("Content-Type", "application/json")]
  , body := [("role_id", v.roleId), ("secret_id", v.secretId)] }

/-- Embedding of `Vault.GetToken`, with the network passed in: `respond`
is the HTTP round trip.  Returns the Go result (a `nil` error becomes
`.ok` with the updated receiver, a non-nil error becomes `.error` with
its message) and the list of outbound calls made.  The decoder error is
discarded in the source, so a malformed 200 body leaves the zero-valued
`authResponse`. -/
def Vault.GetToken (v : Vault)
    (respond : HttpClientConfig → HttpRequest → HttpResult (Option AuthResponse)) :
    Except String Vault × List OutboundCall :=
  let client : HttpClientConfig := { timeoutSeconds := 10 }
  let req := v.getTokenRequest
  let result : Except String Vault :=
    match respond client req with
    | .transportError => .error "Failed to autenticate with vault"
    | .response status mbody =>
      if status ≠ 200 then
        .error "Failed to auhenticate with vault"
      else
        let decoded := mbody.getD AuthResponse.zero
        .ok { v with token := decoded.auth.client_token }
  (result, [{ client := client, request := req }])

/-- The request `SignSshCertificate` builds: `POST
https://<Url>/v1/ssh-client-signer/sign/teste-ssh` with JSON body
`{public_key, valid_principals, cert_type}` where `public_key` is the
marshalled key of the certificate argument, `valid_principals` is the
string literal `"root"` and `cert_type` is `"user"`, and headers for the
content type and `X-Vault-Token` carrying the cached token. -/
def Vault.signRequest (v : Vault) (c : SshCert) : HttpRequest :=
  { method := "POST"
  , url := "https://" ++ v.Url ++ "/v1/ssh-client-signer/sign/teste-ssh"
  , headers := [("Content-Type", "application/json"), ("X-Vault-Token", v.token)]
  , body := [("public_key", c.keyAuthorized)
            , ("valid_principals", "root")
            , ("cert_type", "user")] }

/-- Embedding of `Vault.SignSshCertificate` with the network passed in.
The Go function returns `(string, error)`; that pair is kept literally as
`String × Option String` (`("-1", some msg)` on failure, `(signedKey,
none)` on success), together with the outbound calls made.  As in the
source, the decoder error is discarded, so a malformed 200 body yields
the zero-valued `sshCertificate` and hence the empty signed key with a
nil error. -/
def Vault.SignSshCertificate (v : Vault) (c : SshCert)
    (respond : HttpClientConfig → HttpRequest → HttpResult (Option SignResponse)) :
    (String × Option String) × List OutboundCall :=
  let req := v.signRequest c
  let client : HttpClientConfig := { timeoutSeconds := 10 }
  let result : String × Option String :=
    match respond client req with
    | .transportError => ("-1", some "Failed to sign ssh certificate")
    | .response status mbody =>
      if status ≠ 200 then
        ("-1", some "Failed to sign ssh certificate, not 200 ok")
      else
        let decoded := mbody.getD SignResponse.zero
        (decoded.data.signed_key, none)
  (result, [{ client := client, request := req }])

/-- Embedding of `Vault.GetExternalPublicKey`: the source performs
`http.Get(v.Url)`, ignoring its `url` parameter entirely.  Here `respond`
maps the address actually fetched to the outcome; the body is
`Except String String` (`.error` when `ioutil.ReadAll` fails).  Returns
the Go `(string, error)` pair together with the address the GET
targeted. -/
def Vault.GetExternalPublicKey (v : Vault) (url : String)
    (respond : String → HttpResult (Except String String)) :
    (String × Option String) × String :=
  let address := v.Url
  let result : String × Option String :=
    match respond address with
    | .transportError => ("-1", some "Get error")
    | .response status body =>
      if status ≠ 200 then
        ("-1", some "External CA did not answer correctly")
      else
        match body with
        | .error e => ("-1", some e)
        | .ok data => (data, none)
  (result, address)

/-!
Embedding of `cli/cmd/roleAssign.go`.  The two cobra commands are
modelled as pure functions from an environment of step outcomes (each
field records what the corresponding call in the source would have
produced) to an outcome record.  Every `os.Exit(1)` in the source becomes
an outcome with exit code 1; falling off the end of the `Run` closure
becomes exit code 0.  All diagnostics in the source are written with
`fmt.Printf`/`fmt.Println`, which target standard output, so every
recorded print is tagged `OutStream.stdout`.
-/

/-- The stream a message is printed to. -/
inductive OutStream where
  | stdout
  | stderr
deriving DecidableEq, Repr

/-- What became of the body of an HTTP response on the client side:
reading it failed (`io.ReadAll` error), JSON unmarshalling failed, or it
parsed to a value. -/
inductive BodyOutcome (α : Type) where
  | readError (msg : String)
  | malformed (msg : String)
  | parsed (a : α)
deriving DecidableEq, Repr

/-- The observable outcome of running one cobra command: the process
exit code and the messages printed, each tagged with its stream. -/
structure CmdOutcome where
  exitCode : Nat
  prints : List (OutStream × String)
deriving DecidableEq, Repr

/-- The `RoleResponse` struct parsed by `roleAssignCmd`. -/
structure RoleResponse where
  details : String
  message : String
  result : String
deriving DecidableEq, Repr

/-- Environment for one run of `roleAssignCmd`: the outcome of each
fallible step, in source order. -/
structure RoleAssignEnv where
  isSlug : Bool
  recoverToken : Except String String
  newRequestErr : Option String
  post : HttpResult (BodyOutcome RoleResponse)

/-- The warning `roleAssignCmd` prints when the response status is not
200 — note the source prints it and then continues without exiting. -/
def statusWarnPrints (status : Nat) : List (OutStream × String) :=
  if status ≠ 200 then
    [(OutStream.stdout,
      "Client error checking http status response: (" ++ toString status ++ ")")]
  else []

/-- Embedding of the `Run` closure of `roleAssignCmd` on arguments
`[role, user]`.  Mirrors the source exactly: every failing step prints
to stdout and exits 1, except the non-200 status check, which only
prints a warning and falls through to body parsing. -/
def roleAssignRun (env : RoleAssignEnv) (role : String) : CmdOutcome :=
  if !env.isSlug then
    { exitCode := 1
    , prints := [(OutStream.stdout,
        "Client error parsing id, is it a slug string?: (" ++ role ++ ")")] }
  else
    match env.recoverToken with
    | .error e =>
      { exitCode := 1
      , prints := [(OutStream.stdout,
          "Client error getting http client: (" ++ e ++ ")")] }
    | .ok _tok =>
      match env.newRequestErr with
      | some e =>
        { exitCode := 1
        , prints := [(OutStream.stdout,
            "Client pre post role request: (" ++ e ++ ")")] }
      | none =>
        match env.post with
        | .transportError =>
          { exitCode := 1
          , prints := [(OutStream.stdout, "Client error post role request")] }
        | .response status body =>
          match body with
          | .readError e =>
            { exitCode := 1
            , prints := [(OutStream.stdout,
                "Client error reading role response: (" ++ e ++ ")")] }
          | .malformed e =>
            { exitCode := 1
            , prints := statusWarnPrints status ++
                [(OutStream.stdout,
                  "Client error parsing role response: (" ++ e ++ ")")] }
          | .parsed r =>
            if r.result = "fail" then
              { exitCode := 1
              , prints := statusWarnPrints status ++
                  [(OutStream.stdout, "Client error calling GSH API")] }
            else
              { exitCode := 0
              , prints := statusWarnPrints status ++
                  [(OutStream.stdout, r.message)] }

/-- The discovery document used by `hostConnectCmd`
(`configResponse`). -/
structure DiscoveryConfig where
  BaseURL : String
  Realm : String
  UsernameClaim : String
deriving DecidableEq, Repr

/-- The `types.CertRequest` JSON sent to `POST /certificates`. -/
structure CertRequest where
  Key : String
  RemoteHost : String
  RemoteUser : String
  UserIP : String
deriving DecidableEq, Repr

/-- The `CertResponse` struct parsed by `hostConnectCmd`. -/
structure CertResponse where
  certificate : String
  result : String
deriving DecidableEq, Repr

/-- Environment for one run of `hostConnectCmd`: the outcome of each
fallible step, in source order.  `rsaGen` collapses the three fallible
operations of the `"rsa"` switch case (`rsa.GenerateKey`,
`ssh.NewPublicKey`, PEM encoding) into one step producing the marshalled
public key and the PEM private key — each of the three aborts with exit
code 1 exactly like the collapsed step.  `dial` collapses the two
`net.Dial` attempts and yields the local IP.  `writeKeys` is the outcome
of `files.WriteKeys` and yields the key and certificate file paths. -/
structure HostConnectEnv where
  keyTypeFlag : Except String String
  rsaGen : Except String (String × String)
  parseEndpoint : Except String Unit
  dial : Except String String
  discovery : Except String DiscoveryConfig
  recoverToken : Except String String
  oidcProvider : Except String Unit
  usernameFlagChanged : Bool
  userInfo : Except String (List (String × String))
  localUser : Except String String
  usernameFlag : Except String String
  post : HttpResult (BodyOutcome CertResponse)
  writeKeys : Except String (String × String)

/-- The observable outcome of one run of `hostConnectCmd`: exit code,
prints, whether the SSH client was executed and with which argument
vector, the arguments `files.WriteKeys` was called with (private key,
certificate), and the certificate request sent to the API, when those
points of the flow were reached. -/
structure HostConnectOutcome where
  exitCode : Nat
  prints : List (OutStream × String)
  sshExecuted : Bool
  sshCommand : List String
  writeKeysCall : Option (String × String)
  certRequestSent : Option CertRequest
deriving DecidableEq, Repr

/-- An exit-1 outcome of `hostConnectCmd`: one diagnostic on stdout, no
SSH execution. -/
def hcExit1 (msg : String) (cr : Option CertRequest)
    (wk : Option (String × String)) : HostConnectOutcome :=
  { exitCode := 1
  , prints := [(OutStream.stdout, msg)]
  , sshExecuted := false
  , sshCommand := []
  , writeKeysCall := wk
  , certRequestSent := cr }

/-- The tail of the `Run` closure of `hostConnectCmd`, from the endpoint
URL parse onward, taken after the key-generation switch has produced the
key pair `(sshPublicKey, sshPrivateKey)`.  The flow mirrors the source in
order: endpoint URL parse, outbound-IP dial, API discovery, OIDC token
recovery, OIDC provider construction, username resolution (user-info
claims with a local-user fallback, or the explicit flag), certificate
request POST (transport error, body read error, non-200 status, then
JSON parse, in that order), `files.WriteKeys`, and finally the SSH exec.
The source never inspects `certResponse.Result`, and it discards the
result of `sh.Run()` (the `sshStatus` parameter), printing
`host-connect called` and returning, so on the success path the process
exits 0. -/
def hostConnectWithKeys (env : HostConnectEnv) (host : String) (sshStatus : Int)
    (sshPublicKey sshPrivateKey : String) : HostConnectOutcome :=
  match env.parseEndpoint with
  | .error e =>
    hcExit1 ("Client error parsing URL endpoint: (" ++ e ++ ")") none none
  | .ok _ =>
    match env.dial with
    | .error e =>
      hcExit1 ("Client error connecting on endpoint: (" ++ e ++ ")") none none
    | .ok localIP =>
      match env.discovery with
      | .error e => hcExit1 ("GSH client discover error: " ++ e) none none
      | .ok configResponse =>
        match env.recoverToken with
        | .error e =>
          hcExit1 ("Client error getting http client: (" ++ e ++ ")") none none
        | .ok _accessToken =>
          match env.oidcProvider with
          | .error e =>
            hcExit1 ("Client error getting OIDC Provider: (" ++ e ++ ")") none none
          | .ok _ =>
            let usernameOut : Except String String :=
              if !env.usernameFlagChanged then
                match env.userInfo with
                | .error e =>
                  .error ("Client error getting OIDC userinfo: (" ++ e ++ ")")
                | .ok claims =>
                  let uname := (claims.lookup configResponse.UsernameClaim).getD ""
                  if uname = "" then
                    match env.localUser with
                    | .error e =>
                      .error ("Client error getting username: (" ++ e ++ ")")
                    | .ok u => .ok u
                  else .ok uname
              else
                match env.usernameFlag with
                | .error e =>
                  .error ("Client error getting username: (" ++ e ++ ")")
                | .ok u => .ok u
            match usernameOut with
            | .error msg => hcExit1 msg none none
            | .ok username =>
              let certRequest : CertRequest :=
                { Key := sshPublicKey
                , RemoteHost := host
                , RemoteUser := username
                , UserIP := localIP }
              match env.post with
              | .transportError =>
                hcExit1 "Client error post certificate request"
                  (some certRequest) none
              | .response status body =>
                match body with
                | .readError e =>
                  hcExit1 ("Client error reading certificate response: (" ++ e ++ ")")
                    (some certRequest) none
                | .malformed e =>
                  if status ≠ 200 then
                    hcExit1 ("Client error checking http status response: ("
                        ++ toString status ++ ")") (some certRequest) none
                  else
                    hcExit1 ("Client error parsing certificate response: ("
                        ++ e ++ ")") (some certRequest) none
                | .parsed certResponse =>
                  if status ≠ 200 then
                    hcExit1 ("Client error checking http status response: ("
                        ++ toString status ++ ")") (some certRequest) none
                  else
                    let wkArgs := (sshPrivateKey, certResponse.certificate)
                    match env.writeKeys with
                    | .error e =>
                      hcExit1 ("Client error write certificate files: ("
                          ++ e ++ ")") (some certRequest) (some wkArgs)
                    | .ok (keyFile, certFile) =>
                      { exitCode := 0
                      , prints := [(OutStream.stdout, "host-connect called")]
                      , sshExecuted := true
                      , sshCommand :=
                          ["ssh", "-i", keyFile, "-i", certFile, "-l", username, host]
                      , writeKeysCall := some wkArgs
                      , certRequestSent := some certRequest }

/-- Embedding of the `Run` closure of `hostConnectCmd` on target host
`host` (`args[0]`).  First the key-type flag is read; the `switch` on it
has a single case `"rsa"` and no default, so for any other key-type
value the `Keys` struct keeps its zero value — both keys stay the empty
string — and the flow proceeds.  The rest of the flow is
`hostConnectWithKeys`. -/
def hostConnectRun (env : HostConnectEnv) (host : String) (sshStatus : Int) :
    HostConnectOutcome :=
  match env.keyTypeFlag with
  | .error e =>
    hcExit1 ("Client error parsing key-type option: (" ++ e ++ ")") none none
  | .ok keyType =>
    let keysOut : Except String (String × String) :=
      match keyType with
      | "rsa" =>
        match env.rsaGen with
        | .error e => .error ("Client error generating RSA keys: (" ++ e ++ ")")
        | .ok pk => .ok pk
      | _ => .ok ("", "")
    match keysOut with
    | .error msg => hcExit1 msg none none
    | .ok (sshPublicKey, sshPrivateKey) =>
      hostConnectWithKeys env host sshStatus sshPublicKey sshPrivateKey

/-!
Theorems for the claims.  Concrete instantiation environments come
first, then one theorem per claim (with a separate witness theorem where
the claim theorem carries hypotheses).
-/

/-- A concrete `Vault` receiver used for evaluations at concrete
inputs. -/
def vaultSample : Vault :=
  { Url := "vault.example.com", token := "tok", roleId := "rid", secretId := "sid" }

/-- C1: refuted by the code.  Whatever principals the certificate
argument requests, the signing request the Delegated Signer sends
carries the hardcoded `valid_principals` value `root`.  At a
certificate requesting exactly the principal `deploy`, the request body
still says `root` and not `deploy`, and the request is independent of
the requested principal list altogether, so the issued certificate
principals cannot equal the authorized remote user whenever that user is
not `root`. -/
theorem signRequest_hardcodes_root_principal :
    (vaultSample.signRequest
        { keyAuthorized := "ssh-rsa AAAAB3 user", validPrincipals := ["deploy"] }).body.lookup
      "valid_principals" = some "root" ∧
    (vaultSample.signRequest
        { keyAuthorized := "ssh-rsa AAAAB3 user", validPrincipals := ["deploy"] }).body.lookup
      "valid_principals" ≠ some "deploy" ∧
    ∀ ps ps' : List String,
      vaultSample.signRequest { keyAuthorized := "k", validPrincipals := ps } =
        vaultSample.signRequest { keyAuthorized := "k", validPrincipals := ps' } :=
  ⟨by decide, by decide, fun _ _ => rfl⟩

/-- C2: refuted by the code.  Both Delegated Signer calls discard the
JSON decoder error: on an HTTP 200 response whose body does not decode,
`GetToken` returns a nil error and caches the empty-string token, and
`SignSshCertificate` returns the empty signed key with a nil error —
the malformed response is silently ignored rather than surfaced as a
terminal error. -/
theorem vault_malformed_body_silently_ignored :
    (vaultSample.GetToken (fun _ _ => .response 200 none)).1 =
      .ok { Url := "vault.example.com", token := "", roleId := "rid", secretId := "sid" } ∧
    (vaultSample.SignSshCertificate
        { keyAuthorized := "k", validPrincipals := ["deploy"] }
        (fun _ _ => .response 200 none)).1 = ("", none) :=
  ⟨rfl, rfl⟩

/-- C3: both Delegated Signer operations issue exactly one outbound call
per invocation — hence zero retries, which is at most one — and the
`http.Client` for that single call is configured with a 10-second
timeout. -/
theorem vault_calls_single_attempt_with_timeout (v : Vault) (c : SshCert)
    (ra : HttpClientConfig → HttpRequest → HttpResult (Option AuthResponse))
    (rs : HttpClientConfig → HttpRequest → HttpResult (Option SignResponse)) :
    (v.GetToken ra).2.map (fun k => k.client.timeoutSeconds) = [10] ∧
    (v.SignSshCertificate c rs).2.map (fun k => k.client.timeoutSeconds) = [10] :=
  ⟨rfl, rfl⟩

/-- C4: the value `SignSshCertificate` returns is computed from the
response alone.  Holding the response fixed and changing the cached
token does not change the returned pair, and on a 200 response with a
decoded body the returned string is exactly the `data.signed_key` field
of that body — the token never flows into the return value. -/
theorem signSshCertificate_result_independent_of_token (v : Vault)
    (t t' : String) (c : SshCert) (resp : HttpResult (Option SignResponse)) :
    ({ v with token := t }.SignSshCertificate c (fun _ _ => resp)).1 =
      ({ v with token := t' }.SignSshCertificate c (fun _ _ => resp)).1 ∧
    ∀ b : SignResponse,
      (v.SignSshCertificate c (fun _ _ => .response 200 (some b))).1 =
        (b.data.signed_key, none) :=
  ⟨rfl, fun _ => rfl⟩

/-- C7: the wire protocol of the Delegated Signer.  `GetToken` issues
exactly one `POST` to `https://<Url>/v1/auth/approle/login` with the
JSON body `{role_id, secret_id}` and, on a 200 response, caches the
`auth.client_token` field of the body.  `SignSshCertificate` issues
exactly one `POST` to `https://<Url>/v1/ssh-client-signer/sign/<role>`
with role `teste-ssh`, JSON body `{public_key, valid_principals,
cert_type}` and the `X-Vault-Token` header carrying the cached token,
and on a 200 response returns the `data.signed_key` field of the
body. -/
theorem vault_wire_protocol (v : Vault) (c : SshCert)
    (a : AuthResponse) (b : SignResponse)
    (ra : HttpClientConfig → HttpRequest → HttpResult (Option AuthResponse))
    (rs : HttpClientConfig → HttpRequest → HttpResult (Option SignResponse)) :
    (v.GetToken ra).2.map (fun k => k.request) =
      [{ method := "POST"
       , url := "https://" ++ v.Url ++ "/v1/auth/approle/login"
       , headers := [("Content-Type", "application/json")]
       , body := [("role_id", v.roleId), ("secret_id", v.secretId)] }] ∧
    (v.GetToken (fun _ _ => .response 200 (some a))).1 =
      .ok { v with token := a.auth.client_token } ∧
    (v.SignSshCertificate c rs).2.map (fun k => k.request) =
      [{ method := "POST"
       , url := "https://" ++ v.Url ++ "/v1/ssh-client-signer/sign/teste-ssh"
       , headers := [("Content-Type", "application/json"), ("X-Vault-Token", v.token)]
       , body := [("public_key", c.keyAuthorized)
                 , ("valid_principals", "root")
                 , ("cert_type", "user")] }] ∧
    "/v1/ssh-client-signer/sign/teste-ssh" = "/v1/ssh-client-signer/sign/" ++ "teste-ssh" ∧
    (v.SignSshCertificate c (fun _ _ => .response 200 (some b))).1 =
      (b.data.signed_key, none) :=
  ⟨rfl, rfl, rfl, by decide, rfl⟩

/-- C8: `GetExternalPublicKey` ignores its `url` parameter: the whole
run (result and fetched address) is unchanged under any two values of
the argument, and the address the GET targets is the `Url` field of the
receiver. -/
theorem getExternalPublicKey_ignores_url_argument (v : Vault) (u u' : String)
    (respond : String → HttpResult (Except String String)) :
    v.GetExternalPublicKey u respond = v.GetExternalPublicKey u' respond ∧
    (v.GetExternalPublicKey u respond).2 = v.Url :=
  ⟨rfl, rfl⟩

/-- A fully successful host-connect environment, used for concrete
instantiations. -/
def hcEnvOk : HostConnectEnv :=
  { keyTypeFlag := .ok "rsa"
  , rsaGen := .ok ("ssh-rsa AAAAPUB", "RSA-PRIVATE-PEM")
  , parseEndpoint := .ok ()
  , dial := .ok "10.0.0.5"
  , discovery := .ok { BaseURL := "https://idp.example.com/auth/realms"
                     , Realm := "corp"
                     , UsernameClaim := "preferred_username" }
  , recoverToken := .ok "jwt-access-token"
  , oidcProvider := .ok ()
  , usernameFlagChanged := false
  , userInfo := .ok [("preferred_username", "alice")]
  , localUser := .ok "localalice"
  , usernameFlag := .ok "flaguser"
  , post := .response 200 (.parsed { certificate := "signed-cert", result := "success" })
  , writeKeys := .ok ("/tmp/gsh-key", "/tmp/gsh-cert") }

/-- The failing steps the Client Agent host-connect claim enumerates:
key generation (under the default `rsa` key type), token acquisition, a
non-Allow issuance response (per the API contract HTTP 200 accompanies
success, so a denial arrives with a non-200 status), and a transport
error on the certificate request. -/
def hostConnectStepFails (env : HostConnectEnv) : Prop :=
  (env.keyTypeFlag = .ok "rsa" ∧ ∃ e, env.rsaGen = .error e) ∨
  (∃ e, env.recoverToken = .error e) ∨
  env.post = .transportError ∨
  (∃ s b, env.post = .response s b ∧ s ≠ 200)

/-- C5: in the host-connect flow, if key generation, token acquisition,
the issuance response (non-200 status) or the transport fails, the
process exits with code 1 and the SSH client is never executed. -/
theorem hostConnect_failed_step_aborts_before_ssh (env : HostConnectEnv)
    (host : String) (s : Int) (h : hostConnectStepFails env) :
    (hostConnectRun env host s).exitCode = 1 ∧
    (hostConnectRun env host s).sshExecuted = false := by
  rcases h with ⟨hk, e, he⟩ | ⟨e, he⟩ | hp | ⟨st, b, hp, hs⟩ <;>
    (simp only [hostConnectRun, hostConnectWithKeys]
     repeat' split) <;>
    first
      | exact ⟨rfl, rfl⟩
      | simp_all [hcExit1]

/-- Witness for C5: a concrete environment whose token acquisition
fails; the run exits 1 without executing SSH. -/
def hcEnvTokenFail : HostConnectEnv :=
  { hcEnvOk with recoverToken := .error "identity provider unreachable" }

theorem hostConnect_failed_step_aborts_before_ssh_witness :
    hostConnectStepFails hcEnvTokenFail ∧
    ((hostConnectRun hcEnvTokenFail "web1.example.com" 0).exitCode = 1 ∧
     (hostConnectRun hcEnvTokenFail "web1.example.com" 0).sshExecuted = false) :=
  ⟨Or.inr (Or.inl ⟨"identity provider unreachable", rfl⟩),
   hostConnect_failed_step_aborts_before_ssh hcEnvTokenFail "web1.example.com" 0
     (Or.inr (Or.inl ⟨"identity provider unreachable", rfl⟩))⟩

/-- A role-assign environment in which every local step succeeds and the
server answers HTTP 500 with a well-formed body whose result is
`success`. -/
def roleAssignEnvNon200 : RoleAssignEnv :=
  { isSlug := true
  , recoverToken := .ok "jwt-access-token"
  , newRequestErr := none
  , post := .response 500
      (.parsed { details := "", message := "role assigned", result := "success" }) }

/-- A host-connect environment in which the issuance service answers
HTTP 200 with a body whose result field is `fail`. -/
def hcEnvResultFail : HostConnectEnv :=
  { hcEnvOk with
      post := .response 200 (.parsed { certificate := "", result := "fail" }) }

/-- C6: refuted by the code.  On a role-assign request the server
answers with a non-200 status (here 500) and a parseable body whose
result is not `fail`, the command prints its diagnostic and the response
message to standard output and falls through to a zero exit — the
non-200 status never triggers `os.Exit(1)`.  Likewise host-connect never
inspects the result field: on an HTTP 200 response with result `fail`
the SSH client is still executed and the process exits 0.  All
diagnostics of both commands are printed with `fmt.Printf` to standard
output, never to standard error. -/
theorem client_failure_exit_violations :
    (roleAssignRun roleAssignEnvNon200 "ops").exitCode = 0 ∧
    (roleAssignRun roleAssignEnvNon200 "ops").prints =
      [(OutStream.stdout, "Client error checking http status response: (500)"),
       (OutStream.stdout, "role assigned")] ∧
    (hostConnectRun hcEnvResultFail "web1.example.com" 0).exitCode = 0 ∧
    (hostConnectRun hcEnvResultFail "web1.example.com" 0).sshExecuted = true :=
  ⟨by decide, by decide, by decide, by decide⟩

/-- C9: with the key-type flag set to any value other than `rsa`, the
`switch` has no matching case, so key generation is silently skipped:
the run does not depend on the RSA generator at all (in particular a key
generation failure cannot abort it), the certificate request — when one
is sent — carries the empty public key, and `files.WriteKeys` — when it
is called — receives the empty private key. -/
theorem hostConnect_nonRsa_keyType_skips_keygen (env : HostConnectEnv)
    (host : String) (s : Int) (kt : String)
    (h1 : env.keyTypeFlag = .ok kt) (h2 : kt ≠ "rsa") :
    (∀ r r', hostConnectRun { env with rsaGen := r } host s =
        hostConnectRun { env with rsaGen := r' } host s) ∧
    (∀ cr, (hostConnectRun env host s).certRequestSent = some cr → cr.Key = "") ∧
    (∀ pk cf, (hostConnectRun env host s).writeKeysCall = some (pk, cf) → pk = "") := by
  have hrun : ∀ r, hostConnectRun { env with rsaGen := r } host s =
      hostConnectWithKeys env host s "" "" := by
    intro r
    simp only [hostConnectRun, h1]
    rfl
  have hrun0 : hostConnectRun env host s = hostConnectWithKeys env host s "" "" := by
    simp only [hostConnectRun, h1]
  refine ⟨fun r r' => by rw [hrun r, hrun r'], ?_, ?_⟩
  · intro cr hcr
    rw [hrun0] at hcr
    revert hcr
    simp only [hostConnectWithKeys]
    repeat' split
    all_goals simp_all [hcExit1]
    all_goals (rintro rfl; rfl)
  · intro pk cf hwk
    rw [hrun0] at hwk
    revert hwk
    simp only [hostConnectWithKeys]
    repeat' split
    all_goals simp_all [hcExit1]

/-- Witness for C9: a concrete environment whose key-type flag is
`ed25519`; the certificate request that reaches the API carries the
empty public key. -/
def hcEnvEd25519 : HostConnectEnv :=
  { hcEnvOk with keyTypeFlag := .ok "ed25519" }

theorem hostConnect_nonRsa_keyType_skips_keygen_witness :
    hcEnvEd25519.keyTypeFlag = .ok "ed25519" ∧ "ed25519" ≠ "rsa" ∧
    (∀ cr, (hostConnectRun hcEnvEd25519 "web1.example.com" 0).certRequestSent =
        some cr → cr.Key = "") :=
  ⟨rfl, by decide,
   (hostConnect_nonRsa_keyType_skips_keygen hcEnvEd25519 "web1.example.com" 0
     "ed25519" rfl (by decide)).2.1⟩

/-- C10: the host-connect run is entirely independent of the exit
status of the spawned SSH client, and whenever the SSH client was
executed the process prints `host-connect called` and exits 0. -/
theorem hostConnect_ignores_ssh_exit_status (env : HostConnectEnv) (host : String) :
    (∀ s s', hostConnectRun env host s = hostConnectRun env host s') ∧
    ((hostConnectRun env host 0).sshExecuted = true →
      (hostConnectRun env host 0).exitCode = 0 ∧
      (hostConnectRun env host 0).prints = [(OutStream.stdout, "host-connect called")]) := by
  refine ⟨fun s s' => rfl, ?_⟩
  intro hssh
  revert hssh
  simp only [hostConnectRun, hostConnectWithKeys]
  repeat' split
  all_goals simp_all [hcExit1]

/-- Witness for C10: in the fully successful environment the SSH client
is executed, the process exits 0 and the only print is
`host-connect called`. -/
theorem hostConnect_ignores_ssh_exit_status_witness :
    (hostConnectRun hcEnvOk "web1.example.com" 0).sshExecuted = true ∧
    ((hostConnectRun hcEnvOk "web1.example.com" 0).exitCode = 0 ∧
     (hostConnectRun hcEnvOk "web1.example.com" 0).prints =
       [(OutStream.stdout, "host-connect called")]) :=
  ⟨by decide,
   (hostConnect_ignores_ssh_exit_status hcEnvOk "web1.example.com").2 (by decide)⟩
